import Mathlib

/-!
Verification development for the `accounts` app of the
user-authentication-system repository (Django).

The Python source is shallowly embedded: Django model rows become Lean
structures, the database becomes explicit lists of rows, view functions
become pure state-passing functions returning an outcome (the message or
redirect the caller observes) together with the updated database, and the
framework-provided signed-token machinery (django.contrib.auth.tokens)
is embedded symbolically: an HMAC signature is represented by the pair of
the key salt and the hashed value, with equality of signatures holding
exactly when salt, value and embedded timestamp agree (the standard
symbolic model of an unforgeable keyed hash).

Machine integers do not occur (Django pks and timestamps are unbounded
Python ints); time is modelled as seconds, matching Django
PasswordResetTokenGenerator arithmetic on whole seconds.
-/

/-- Row of the django.contrib.auth User table, as used by accounts/views.py:
pk, username, email, the stored password hash, and the is_active flag. -/
structure DjangoUser where
  pk : Nat
  username : String
  email : String
  password : String
  is_active : Bool
deriving DecidableEq, Repr

/-- Row of the UserProfile model (accounts/models.py): role (default
"user"), email_verified (default false), and the optional stored token
fields with their issuance timestamps. Stored tokens are kept in their
parsed symbolic form. -/
structure SignedToken where
  ts : Nat
  salt : String
  hash : String
deriving DecidableEq, Repr

/-- Profile row, one-to-one with a DjangoUser via userPk
(accounts/models.py, class UserProfile). -/
structure UserProfile where
  userPk : Nat
  role : String
  email_verified : Bool
  email_verification_token : Option SignedToken
  email_verification_created : Option Nat
  password_reset_token : Option SignedToken
  password_reset_created : Option Nat
deriving DecidableEq, Repr

/-- The persistent state the views read and write: the User table, the
UserProfile table, and the log of attempted outbound emails
(recipient, subject), in order of dispatch. -/
structure DB where
  users : List DjangoUser
  profiles : List UserProfile
  sentEmails : List (String × String)
deriving DecidableEq, Repr

/-- Key salt of django.contrib.auth.tokens.PasswordResetTokenGenerator.
Both custom generators in accounts/tokens.py subclass it WITHOUT
overriding key_salt, so both inherit this same value. -/
def djangoKeySalt : String := "django.contrib.auth.tokens.PasswordResetTokenGenerator"

/-- A token generator (django.contrib.auth.tokens.PasswordResetTokenGenerator
and its two subclasses in accounts/tokens.py): a key salt and the
make_hash_value function mixing account state into the signature. -/
structure TokenGen where
  key_salt : String
  make_hash_value : DjangoUser → Nat → String

/-- EmailVerificationTokenGenerator (accounts/tokens.py lines 14-38):
make_hash_value is str(user.pk) + str(timestamp) + str(user.email);
key_salt is inherited from the Django base class. -/
def email_verification_token : TokenGen :=
  { key_salt := djangoKeySalt
    make_hash_value := fun u ts => Nat.repr u.pk ++ Nat.repr ts ++ u.email }

/-- PasswordResetTokenGeneratorCustom (accounts/tokens.py lines 41-58):
make_hash_value is str(user.pk) + str(timestamp) + str(user.password);
key_salt is inherited from the Django base class. -/
def password_reset_token : TokenGen :=
  { key_salt := djangoKeySalt
    make_hash_value := fun u ts => Nat.repr u.pk ++ Nat.repr ts ++ u.password }

/-- Modelled from the spec: the token lifetime. The Django setting
PASSWORD_RESET_TIMEOUT is read from the project settings module, which is
not among the provided source files; the spec (and the docstrings in
accounts/tokens.py and accounts/views.py) fix the window at 24 hours. -/
def PASSWORD_RESET_TIMEOUT : Nat := 60 * 60 * 24

/-- make_token (Django PasswordResetTokenGenerator.make_token): embeds the
issuance timestamp and the HMAC, here symbolically the key salt together
with make_hash_value of the CURRENT account state at the embedded
timestamp. -/
def make_token (g : TokenGen) (u : DjangoUser) (now : Nat) : SignedToken :=
  { ts := now, salt := g.key_salt, hash := g.make_hash_value u now }

/-- check_token (Django PasswordResetTokenGenerator.check_token): true iff
the signature verifies against make_hash_value recomputed from the
account CURRENT state at the embedded timestamp, and the elapsed time
since that timestamp is at most the timeout. Django rejects with
(now_seconds - ts) > timeout; Nat subtraction truncates at zero exactly
as the Python comparison accepts not-yet-elapsed tokens. -/
def check_token (g : TokenGen) (u : DjangoUser) (tok : SignedToken) (now : Nat) : Bool :=
  (tok.salt == g.key_salt) &&
  (tok.hash == g.make_hash_value u tok.ts) &&
  decide (now - tok.ts ≤ PASSWORD_RESET_TIMEOUT)

/-!
TokenCodec: encode_uid / decode_uid (accounts/tokens.py lines 66-77),
built on django.utils.http.urlsafe_base64_encode/decode, which in turn
wrap CPython base64/binascii. The byte level is modelled with List Nat
(each entry < 256).
-/

/-- Python exception classes relevant to decode_uid. UnicodeDecodeError
and binascii.Error are subclasses of ValueError (the latter after the
explicit wrapping inside django.utils.http.urlsafe_base64_decode), so a
raise of either is modelled as valueError. otherError stands for any
exception outside the clause `except (TypeError, ValueError,
OverflowError)` of decode_uid. -/
inductive PyExc
  | typeError
  | valueError
  | overflowError
  | otherError
deriving DecidableEq, Repr

/-- Exceptions caught by decode_uid (accounts/tokens.py line 76). -/
def caughtByDecodeUid : PyExc → Bool
  | .typeError => true
  | .valueError => true
  | .overflowError => true
  | .otherError => false

/-- Character of the URL-safe base64 alphabet for a sextet value
(base64.urlsafe_b64encode alphabet: A-Z a-z 0-9 - _). -/
def b64char (n : Nat) : Char :=
  if n < 26 then Char.ofNat (65 + n)
  else if n < 52 then Char.ofNat (97 + (n - 26))
  else if n < 62 then Char.ofNat (48 + (n - 52))
  else if n = 62 then '-'
  else '_'

/-- base64.urlsafe_b64encode with the padding stripped (Django
urlsafe_base64_encode strips trailing newline and = signs): bytes are
grouped in threes into four sextets, a trailing group of one byte gives
two characters and of two bytes gives three characters. -/
def encodeBytes : List Nat → List Char
  | [] => []
  | [b1] => [b64char (b1 / 4), b64char (b1 % 4 * 16)]
  | [b1, b2] => [b64char (b1 / 4), b64char (b1 % 4 * 16 + b2 / 16), b64char (b2 % 16 * 4)]
  | b1 :: b2 :: b3 :: rest =>
      b64char (b1 / 4) :: b64char (b1 % 4 * 16 + b2 / 16) ::
      b64char (b2 % 16 * 4 + b3 / 64) :: b64char (b3 % 64) :: encodeBytes rest

/-- UTF-8 bytes of an ASCII string (django.utils.encoding.force_bytes of
an int pk is str(pk).encode(), and decimal digits are ASCII, where each
character is a single byte equal to its code point). -/
def strBytes (s : String) : List Nat := s.data.map Char.toNat

/-- encode_uid (accounts/tokens.py lines 66-68):
urlsafe_base64_encode(force_bytes(pk)). -/
def encode_uid (pk : Nat) : String :=
  { data := encodeBytes (strBytes (Nat.repr pk)) }

/-- Value of a standard-alphabet base64 data character (A-Z a-z 0-9 + /);
64 for anything else (never used on non-alphabet characters). -/
def b64val (c : Char) : Nat :=
  if 'A' ≤ c ∧ c ≤ 'Z' then c.toNat - 65
  else if 'a' ≤ c ∧ c ≤ 'z' then c.toNat - 97 + 26
  else if '0' ≤ c ∧ c ≤ '9' then c.toNat - 48 + 52
  else if c = '+' then 62
  else if c = '/' then 63
  else 64

/-- Membership in the standard base64 data alphabet (after the urlsafe
translation of - and _ into + and /). -/
def isB64DataChar (c : Char) : Bool :=
  (decide ('A' ≤ c) && decide (c ≤ 'Z')) ||
  (decide ('a' ≤ c) && decide (c ≤ 'z')) ||
  (decide ('0' ≤ c) && decide (c ≤ '9')) ||
  (c == '+') || (c == '/')

/-- Sextets back to bytes: full quads give three bytes, a trailing pair
gives one byte, a trailing triple gives two bytes (binascii.a2b_base64
after padding handling). A trailing singleton is rejected earlier and
never reaches this function. -/
def decodeQuads : List Nat → List Nat
  | a :: b :: c :: d :: rest =>
      (a * 4 + b / 16) :: (b % 16 * 16 + c / 4) :: (c % 4 * 64 + d) :: decodeQuads rest
  | [a, b] => [a * 4 + b / 16]
  | [a, b, c] => [a * 4 + b / 16, b % 16 * 16 + c / 4]
  | _ => []

/-- Translation step of base64.urlsafe_b64decode: the urlsafe alphabet
characters - and _ become the standard + and /. -/
def translateUrlsafe (c : Char) : Char :=
  if c == '-' then '+' else if c == '_' then '/' else c

/-- django.utils.http.urlsafe_base64_decode: pads, translates - _ to + /,
and calls base64 decoding; binascii.Error is wrapped into ValueError.
CPython a2b_base64 in its default non-strict mode ignores characters
outside the alphabet (padding included, which also makes the
Django-added padding immaterial here) and fails when the number of data
characters is congruent to 1 modulo 4. -/
def urlsafe_base64_decode (s : String) : Except PyExc (List Nat) :=
  let t := s.data.map translateUrlsafe
  let dat := t.filter isB64DataChar
  if dat.length % 4 == 1 then .error .valueError
  else .ok (decodeQuads (dat.map b64val))

/-- Step of strict UTF-8 decoding, as CPython str decoding: reads one
code point from a leading byte and the following bytes, rejecting stray
continuation bytes, overlong forms, surrogates and code points above
0x10FFFF; returns the character and the remaining bytes. -/
def utf8DecodeStep (b : Nat) (bs : List Nat) : Option (Char × List Nat) :=
  if b < 0x80 then some (Char.ofNat b, bs)
  else if 0xC2 ≤ b ∧ b ≤ 0xDF then
    match bs with
    | c1 :: bs2 =>
      if 0x80 ≤ c1 ∧ c1 ≤ 0xBF then
        some (Char.ofNat ((b - 0xC0) * 64 + (c1 - 0x80)), bs2)
      else none
    | _ => none
  else if 0xE0 ≤ b ∧ b ≤ 0xEF then
    match bs with
    | c1 :: c2 :: bs2 =>
      if (0x80 ≤ c1 ∧ c1 ≤ 0xBF) ∧ (0x80 ≤ c2 ∧ c2 ≤ 0xBF) then
        let cp := (b - 0xE0) * 4096 + (c1 - 0x80) * 64 + (c2 - 0x80)
        if 0x800 ≤ cp ∧ ¬ (0xD800 ≤ cp ∧ cp ≤ 0xDFFF) then some (Char.ofNat cp, bs2)
        else none
      else none
    | _ => none
  else if 0xF0 ≤ b ∧ b ≤ 0xF4 then
    match bs with
    | c1 :: c2 :: c3 :: bs2 =>
      if (0x80 ≤ c1 ∧ c1 ≤ 0xBF) ∧ (0x80 ≤ c2 ∧ c2 ≤ 0xBF) ∧ (0x80 ≤ c3 ∧ c3 ≤ 0xBF) then
        let cp := (b - 0xF0) * 262144 + (c1 - 0x80) * 4096 + (c2 - 0x80) * 64 + (c3 - 0x80)
        if 0x10000 ≤ cp ∧ cp ≤ 0x10FFFF then some (Char.ofNat cp, bs2)
        else none
      else none
    | _ => none
  else none

/-- One decoding step consumes at least the leading byte: the remainder
never grows. -/
theorem utf8DecodeStep_length {b : Nat} {bs : List Nat} {c : Char} {rest : List Nat}
    (h : utf8DecodeStep b bs = some (c, rest)) : rest.length ≤ bs.length := by
  unfold utf8DecodeStep at h
  simp only [] at h
  repeat' split at h
  all_goals simp_all
  all_goals omega

/-- Strict UTF-8 decoding of a byte list: the step function iterated to
the end of the input, none on the first malformed position. -/
def utf8Decode : List Nat → Option (List Char)
  | [] => some []
  | b :: bs =>
    match h : utf8DecodeStep b bs with
    | none => none
    | some (c, rest) => (utf8Decode rest).map (fun cs => c :: cs)
termination_by l => l.length
decreasing_by
  simp_wf
  have := utf8DecodeStep_length h
  omega

/-- django.utils.encoding.force_str: UTF-8 decode; a malformed byte
sequence raises DjangoUnicodeDecodeError, a subclass of
UnicodeDecodeError, itself a subclass of ValueError. -/
def force_str (bs : List Nat) : Except PyExc String :=
  match utf8Decode bs with
  | some cs => .ok { data := cs }
  | none => .error .valueError

/-- decode_uid (accounts/tokens.py lines 71-77) with the exception flow
made explicit: the outer Except carries an exception that would ESCAPE
the function, the inner Option is its Python return value (None when one
of the caught exception classes was raised). -/
def decode_uid_run (s : String) : Except PyExc (Option String) :=
  match urlsafe_base64_decode s with
  | .error e => if caughtByDecodeUid e then .ok none else .error e
  | .ok bs =>
    match force_str bs with
    | .error e => if caughtByDecodeUid e then .ok none else .error e
    | .ok v => .ok (some v)

/-- Python int() of a decoded uid string, as Django coerces a string pk
in User.objects.get(pk=uid): the canonical case of a nonempty
all-decimal-digit string; anything else is treated as a coercion
failure. -/
def parseNat (s : String) : Option Nat :=
  if s.data.isEmpty then none
  else if s.data.all (fun c => c.isDigit) then
    some (s.data.foldl (fun a c => a * 10 + (c.toNat - 48)) 0)
  else none

/-!
Forms (accounts/forms.py). Field validation order follows Django: field
validators in declaration order, then the clean_<field> methods, then
clean(). The embedding short-circuits at the first error; form validity
(no error at all) coincides with Django validity.
-/

/-- Validation errors of the accounts forms, one per ValidationError code
in accounts/forms.py. -/
inductive FormError
  | emailFormat
  | emailExists
  | emailNotFound
  | pwTooShort
  | pwNoUpper
  | pwNoLower
  | pwNoDigit
  | pwNoSpecial
  | confirmTooShort
  | pwMismatch
deriving DecidableEq, Repr

/-- Python str.lower over the ASCII range, the case used by the forms
(s.encode is ASCII for the emails the claims touch). String.toLower of
the core library is avoided only because its by-position implementation
does not reduce definitionally. -/
def lowerAscii (s : String) : String :=
  { data := s.data.map (fun c =>
      if decide ('A' <= c) && decide (c <= 'Z') then Char.ofNat (c.toNat + 32) else c) }

/-- Simplified stand-in for the Django EmailField format validator
(framework library code): exactly one @ separating a nonempty local part
from a nonempty domain that contains a dot or is localhost. The claims
under verification never depend on the fine structure of this predicate,
only on concrete well-formed inputs passing it. -/
def emailWellFormed (s : String) : Bool :=
  let locPart := s.data.takeWhile (fun c => c != Char.ofNat 64)
  match s.data.dropWhile (fun c => c != Char.ofNat 64) with
  | _ :: domain =>
      (!locPart.isEmpty) && (!domain.isEmpty) && (!domain.contains (Char.ofNat 64)) &&
      (domain.contains (Char.ofNat 46) || domain == ('l' :: 'o' :: 'c' :: 'a' :: 'l' :: 'h' :: 'o' :: 's' :: 't' :: []))
  | [] => false

/-- Test of re.search(r"[A-Z]", password): an ASCII uppercase letter
occurs. -/
def hasUpper (p : String) : Bool :=
  p.data.any (fun c => decide ('A' ≤ c) && decide (c ≤ 'Z'))

/-- Test of re.search(r"[a-z]", password): an ASCII lowercase letter
occurs. -/
def hasLower (p : String) : Bool :=
  p.data.any (fun c => decide ('a' ≤ c) && decide (c ≤ 'z'))

/-- Test of re.search(r"\d", password). Python re also matches non-ASCII
decimal digits; string data here is modelled over the ASCII range, where
the class is exactly 0-9. -/
def hasDigitChar (p : String) : Bool :=
  p.data.any (fun c => c.isDigit)

/-- The special-character class of accounts/forms.py, characters of the
regex [!@#$%^&*(),.?":\x7b\x7d|<>] (the class also contains the two curly
braces, written here by code point). -/
def specialChars : List Char :=
  ['!', '@', '#', '$', '%', '^', '&', '*', '(', ')', ',', '.', '?',
   Char.ofNat 34, ':', Char.ofNat 123, Char.ofNat 125, '|', '<', '>']

/-- Test of re.search of the special-character class. -/
def hasSpecial (p : String) : Bool :=
  p.data.any (fun c => specialChars.contains c)

/-- SignupForm.clean_password (accounts/forms.py lines 64-110): length at
least 8, then one uppercase, one lowercase, one digit, one special
character, each failure with its own error code, in this order. -/
def clean_password_signup (p : String) : Except FormError String :=
  if p.length < 8 then .error .pwTooShort
  else if !hasUpper p then .error .pwNoUpper
  else if !hasLower p then .error .pwNoLower
  else if !hasDigitChar p then .error .pwNoDigit
  else if !hasSpecial p then .error .pwNoSpecial
  else .ok p

/-- PasswordResetForm.clean_password (accounts/forms.py lines 209-243):
the same checks in the same order as SignupForm.clean_password. -/
def clean_password_reset (p : String) : Except FormError String :=
  if p.length < 8 then .error .pwTooShort
  else if !hasUpper p then .error .pwNoUpper
  else if !hasLower p then .error .pwNoLower
  else if !hasDigitChar p then .error .pwNoDigit
  else if !hasSpecial p then .error .pwNoSpecial
  else .ok p

/-- SignupForm full validation (accounts/forms.py lines 16-125): email
format, clean_email (lowercases, rejects an already registered email),
password strength, the min_length=8 field validator of password_confirm,
and the clean() mismatch check. Returns the cleaned (email, password). -/
def cleanSignupForm (db : DB) (email password password_confirm : String) :
    Except FormError (String × String) :=
  if !emailWellFormed email then .error .emailFormat
  else
    let em := lowerAscii email
    if db.users.any (fun u => u.email == em) then .error .emailExists
    else
      match clean_password_signup password with
      | .error e => .error e
      | .ok pw =>
        if password_confirm.length < 8 then .error .confirmTooShort
        else if pw != password_confirm then .error .pwMismatch
        else .ok (em, pw)

/-- PasswordResetForm full validation (accounts/forms.py lines 186-258):
password strength, confirm min_length, mismatch check. -/
def cleanResetForm (password password_confirm : String) : Except FormError String :=
  match clean_password_reset password with
  | .error e => .error e
  | .ok pw =>
    if password_confirm.length < 8 then .error .confirmTooShort
    else if pw != password_confirm then .error .pwMismatch
    else .ok pw

/-- PasswordResetRequestForm validation (accounts/forms.py lines
158-183): email format, then clean_email, which lowercases and REJECTS
an email with no matching account (error code email_not_found). -/
def cleanResetRequestForm (db : DB) (email : String) : Except FormError String :=
  if !emailWellFormed email then .error .emailFormat
  else
    let em := lowerAscii email
    if !db.users.any (fun u => u.email == em) then .error .emailNotFound
    else .ok em

/-!
Database access helpers, standing for the Django ORM calls used by the
views: get by pk, get by email, the reverse one-to-one profile lookup,
and row updates.
-/

/-- User.objects.get(pk=pk), as an Option. -/
def findUserByPk (db : DB) (pk : Nat) : Option DjangoUser :=
  db.users.find? (fun u => u.pk == pk)

/-- User.objects.get(email=email), as an Option. -/
def findUserByEmail (db : DB) (email : String) : Option DjangoUser :=
  db.users.find? (fun u => u.email == email)

/-- user.profile, the reverse one-to-one lookup, as an Option. -/
def findProfile (db : DB) (pk : Nat) : Option UserProfile :=
  db.profiles.find? (fun p => p.userPk == pk)

/-- user.save() after mutating the user row with the given pk. -/
def updateUserByPk (db : DB) (pk : Nat) (f : DjangoUser → DjangoUser) : DB :=
  { db with users := db.users.map (fun u => if u.pk == pk then f u else u) }

/-- profile.save() after mutating the profile row with the given user
pk. -/
def updateProfileByPk (db : DB) (pk : Nat) (f : UserProfile → UserProfile) : DB :=
  { db with profiles := db.profiles.map (fun p => if p.userPk == pk then f p else p) }

/-- send_mail: the attempt is appended to the log. -/
def sendMail (db : DB) (rcpt subject : String) : DB :=
  { db with sentEmails := db.sentEmails ++ [(rcpt, subject)] }

/-- Fresh autoincrement pk for User.objects.create_user. -/
def nextPk (db : DB) : Nat :=
  (db.users.foldr (fun u m => max u.pk m) 0) + 1

/-- Symbolic Django password hasher: User.objects.create_user and
user.set_password store make_password(raw) rather than the raw
password. -/
def hashPassword (raw : String) : String := "pbkdf2_sha256$" ++ raw

/-!
Views (accounts/views.py), embedded as outcome-returning state
transformers. The outcome is what the caller observes: which message is
flashed and where the response redirects.
-/

/-- Caller-observable outcome of the signup view. -/
inductive SignupOutcome
  | formInvalid (e : FormError)
  | registered
  | errorOccurred
deriving DecidableEq, Repr

/-- signup (accounts/views.py lines 115-196), POST branch with form
handling: on a valid form it creates the user inactive, creates the
profile storing the fresh verification token, sends exactly one
verification email and redirects to the pending page; any exception in
that block is caught and reported as a registration error (modelled
here for the one reachable integrity failure, a duplicate username). -/
def signup (db : DB) (email password password_confirm : String) (now : Nat) :
    SignupOutcome × DB :=
  match cleanSignupForm db email password password_confirm with
  | .error e => (.formInvalid e, db)
  | .ok (em, pw) =>
    if db.users.any (fun u => u.username == em) then (.errorOccurred, db)
    else
      let pk := nextPk db
      let u : DjangoUser :=
        { pk := pk, username := em, email := em,
          password := hashPassword pw, is_active := false }
      let tok := make_token email_verification_token u now
      let p : UserProfile :=
        { userPk := pk, role := "user", email_verified := false,
          email_verification_token := some tok,
          email_verification_created := some now,
          password_reset_token := none, password_reset_created := none }
      let db1 : DB :=
        { db with users := db.users ++ [u], profiles := db.profiles ++ [p] }
      let db2 := sendMail db1 em "Verify Your Email - Authentication System"
      (.registered, db2)

/-- Caller-observable outcome of the verify_email view. -/
inductive VerifyOutcome
  | invalidOrExpired
  | alreadyVerified
  | verified
  | invalidLink
  | errorOut
deriving DecidableEq, Repr

/-- verify_email (accounts/views.py lines 206-252): decode the uid, load
user and profile, reject an invalid or expired token, report an
already-verified profile as an informational no-op, otherwise activate
the user, mark the email verified and clear the stored token fields.
A User.DoesNotExist lookup gives the invalid-link message; any other
exception (a non-numeric decoded uid coerced by the pk lookup, or a
missing profile) falls into the generic handler. -/
def verify_email (db : DB) (uidb64 : String) (tok : SignedToken) (now : Nat) :
    VerifyOutcome × DB :=
  match decode_uid_run uidb64 with
  | .error _ => (.errorOut, db)
  | .ok none => (.invalidLink, db)
  | .ok (some uidStr) =>
    match parseNat uidStr with
    | none => (.errorOut, db)
    | some pk =>
      match findUserByPk db pk with
      | none => (.invalidLink, db)
      | some u =>
        match findProfile db pk with
        | none => (.errorOut, db)
        | some p =>
          if !check_token email_verification_token u tok now then
            (.invalidOrExpired, db)
          else if p.email_verified then (.alreadyVerified, db)
          else
            let db1 := updateUserByPk db pk (fun u => { u with is_active := true })
            let db2 := updateProfileByPk db1 pk (fun p =>
              { p with email_verified := true,
                       email_verification_token := none,
                       email_verification_created := none })
            (.verified, db2)

/-- Caller-observable outcome of the login view. -/
inductive LoginOutcome
  | formInvalid
  | accountNotActive
  | emailNotVerified
  | success
  | invalidCredentials
  | errorOut
deriving DecidableEq, Repr

/-- login_view (accounts/views.py lines 263-333), POST branch: lowercase
the email (LoginForm.clean_email), look the user up by email (an unknown
email gives the same invalid-credentials message), reject an inactive
account, then an unverified email, and only then authenticate the
credentials (Django ModelBackend: password hash comparison plus the
is_active gate). A missing profile falls into the generic handler. -/
def login_view (db : DB) (email password : String) : LoginOutcome :=
  if !emailWellFormed email then .formInvalid
  else
    let em := lowerAscii email
    match findUserByEmail db em with
    | none => .invalidCredentials
    | some u =>
      if !u.is_active then .accountNotActive
      else
        match findProfile db u.pk with
        | none => .errorOut
        | some p =>
          if !p.email_verified then .emailNotVerified
          else if (hashPassword password == u.password) && u.is_active then .success
          else .invalidCredentials

/-- Caller-observable outcome of the password reset request view. -/
inductive ResetRequestOutcome
  | emailFormatError
  | noAccountError
  | successRedirect
deriving DecidableEq, Repr

/-- password_reset_request (accounts/views.py lines 357-433), POST
branch: the form itself rejects a non-registered email with the visible
error message of PasswordResetRequestForm.clean_email; on a valid form
the view issues a reset token, stores it on the profile, sends the reset
email, and unconditionally flashes the uniform success message (any
exception inside the try block, such as a missing profile, is swallowed
and still ends in the success message). -/
def password_reset_request (db : DB) (email : String) (now : Nat) :
    ResetRequestOutcome × DB :=
  match cleanResetRequestForm db email with
  | .error .emailNotFound => (.noAccountError, db)
  | .error _ => (.emailFormatError, db)
  | .ok em =>
    match findUserByEmail db em with
    | none => (.successRedirect, db)
    | some u =>
      match findProfile db u.pk with
      | none => (.successRedirect, db)
      | some _ =>
        let tok := make_token password_reset_token u now
        let db1 := updateProfileByPk db u.pk (fun p =>
          { p with password_reset_token := some tok,
                   password_reset_created := some now })
        let db2 := sendMail db1 em "Password Reset - Authentication System"
        (.successRedirect, db2)

/-- Caller-observable outcome of the password reset confirm view. -/
inductive ResetConfirmOutcome
  | invalidOrExpired
  | resetDone
  | showForm
  | formInvalid
  | invalidLink
  | errorOut
deriving DecidableEq, Repr

/-- password_reset_confirm (accounts/views.py lines 436-486): decode the
uid, load user and profile, reject an invalid or expired token; on GET
show the form; on POST validate the new password, store its hash and
clear the stored reset token fields. post carries the POSTed
(password, password_confirm) pair, none for a GET request. -/
def password_reset_confirm (db : DB) (uidb64 : String) (tok : SignedToken)
    (now : Nat) (post : Option (String × String)) : ResetConfirmOutcome × DB :=
  match decode_uid_run uidb64 with
  | .error _ => (.errorOut, db)
  | .ok none => (.invalidLink, db)
  | .ok (some uidStr) =>
    match parseNat uidStr with
    | none => (.errorOut, db)
    | some pk =>
      match findUserByPk db pk with
      | none => (.invalidLink, db)
      | some u =>
        match findProfile db pk with
        | none => (.errorOut, db)
        | some _ =>
          if !check_token password_reset_token u tok now then
            (.invalidOrExpired, db)
          else
            match post with
            | none => (.showForm, db)
            | some (pw, pwc) =>
              match cleanResetForm pw pwc with
              | .error _ => (.formInvalid, db)
              | .ok pw =>
                let db1 := updateUserByPk db pk (fun u =>
                  { u with password := hashPassword pw })
                let db2 := updateProfileByPk db1 pk (fun p =>
                  { p with password_reset_token := none,
                           password_reset_created := none })
                (.resetDone, db2)

/-!
Helper lemmas.
-/

/-- Every sextet value below 64 survives the urlsafe round through the
alphabet: its encoded character, translated back to the standard
alphabet, is a data character and decodes to the same value. -/
theorem b64_sextet_ok : ∀ n < 64,
    isB64DataChar (translateUrlsafe (b64char n)) = true ∧
    b64val (translateUrlsafe (b64char n)) = n := by decide

/-- Bytes below 256 survive the encode-translate-filter-decode pipeline:
the encoded characters are all data characters, their count is never
congruent to 1 modulo 4, and decoding the sextets restores the bytes. -/
theorem encodeBytes_spec (bs : List Nat) (h : ∀ b ∈ bs, b < 256) :
    ((encodeBytes bs).map translateUrlsafe).filter isB64DataChar
        = (encodeBytes bs).map translateUrlsafe ∧
    ((encodeBytes bs).map translateUrlsafe).length % 4 ≠ 1 ∧
    decodeQuads (((encodeBytes bs).map translateUrlsafe).map b64val) = bs := by
  induction bs using encodeBytes.induct with
  | case1 =>
    refine ⟨rfl, by decide, rfl⟩
  | case2 b1 =>
    have hb1 : b1 < 256 := h b1 (by simp)
    obtain ⟨f1, v1⟩ := b64_sextet_ok (b1 / 4) (by omega)
    obtain ⟨f2, v2⟩ := b64_sextet_ok (b1 % 4 * 16) (by omega)
    refine ⟨?_, ?_, ?_⟩
    · simp [encodeBytes, f1, f2]
    · simp [encodeBytes]
    · simp [encodeBytes, v1, v2, decodeQuads]
      omega
  | case3 b1 b2 =>
    have hb1 : b1 < 256 := h b1 (by simp)
    have hb2 : b2 < 256 := h b2 (by simp)
    obtain ⟨f1, v1⟩ := b64_sextet_ok (b1 / 4) (by omega)
    obtain ⟨f2, v2⟩ := b64_sextet_ok (b1 % 4 * 16 + b2 / 16) (by omega)
    obtain ⟨f3, v3⟩ := b64_sextet_ok (b2 % 16 * 4) (by omega)
    refine ⟨?_, ?_, ?_⟩
    · simp [encodeBytes, f1, f2, f3]
    · simp [encodeBytes]
    · simp [encodeBytes, v1, v2, v3, decodeQuads]
      constructor <;> omega
  | case4 b1 b2 b3 rest ih =>
    have hb1 : b1 < 256 := h b1 (by simp)
    have hb2 : b2 < 256 := h b2 (by simp)
    have hb3 : b3 < 256 := h b3 (by simp)
    have hrest : ∀ b ∈ rest, b < 256 := fun b hb => h b (by simp [hb])
    obtain ⟨ihf, ihl, ihd⟩ := ih hrest
    obtain ⟨f1, v1⟩ := b64_sextet_ok (b1 / 4) (by omega)
    obtain ⟨f2, v2⟩ := b64_sextet_ok (b1 % 4 * 16 + b2 / 16) (by omega)
    obtain ⟨f3, v3⟩ := b64_sextet_ok (b2 % 16 * 4 + b3 / 64) (by omega)
    obtain ⟨f4, v4⟩ := b64_sextet_ok (b3 % 64) (by omega)
    refine ⟨?_, ?_, ?_⟩
    · simp [encodeBytes, f1, f2, f3, f4, ihf]
    · simp [encodeBytes] at ihl ⊢
      omega
    · simp only [encodeBytes, List.map_cons, v1, v2, v3, v4, decodeQuads,
        List.cons.injEq]
      exact ⟨by omega, by omega, by omega, ihd⟩

/-- Nat.digitChar only produces ASCII characters. -/
theorem digitChar_ascii (n : Nat) : (Nat.digitChar n).toNat < 128 := by
  by_cases h : n < 16
  · revert h
    revert n
    decide
  · have hstar : Nat.digitChar n = Char.ofNat 42 := by
      unfold Nat.digitChar
      repeat rw [if_neg (by omega)]
    rw [hstar]
    decide

/-- Nat.toDigitsCore only adds ASCII characters to its accumulator. -/
theorem toDigitsCore_ascii (b : Nat) (fuel : Nat) :
    ∀ (n : Nat) (acc : List Char), (∀ c ∈ acc, c.toNat < 128) →
    ∀ c ∈ Nat.toDigitsCore b fuel n acc, c.toNat < 128 := by
  induction fuel with
  | zero =>
    intro n acc hacc c hc
    exact hacc c hc
  | succ fuel ih =>
    intro n acc hacc c hc
    unfold Nat.toDigitsCore at hc
    simp only [] at hc
    split at hc
    · rcases List.mem_cons.mp hc with h | h
      · exact h ▸ digitChar_ascii _
      · exact hacc c h
    · refine ih _ _ ?_ c hc
      intro d hd
      rcases List.mem_cons.mp hd with h | h
      · exact h ▸ digitChar_ascii _
      · exact hacc d h

/-- The decimal representation of a Nat consists of ASCII characters. -/
theorem repr_ascii (n : Nat) : ∀ c ∈ (Nat.repr n).data, c.toNat < 128 := by
  show ∀ c ∈ (Nat.toDigits 10 n).asString.data, c.toNat < 128
  have : (Nat.toDigits 10 n).asString.data = Nat.toDigits 10 n := rfl
  rw [this]
  exact toDigitsCore_ascii 10 (n + 1) n [] (by simp)

/-- UTF-8 decoding of a list of ASCII bytes restores exactly those code
points. -/
theorem utf8Decode_ascii (bs : List Nat) (h : ∀ b ∈ bs, b < 128) :
    utf8Decode bs = some (bs.map Char.ofNat) := by
  induction bs with
  | nil =>
    rw [utf8Decode]
    rfl
  | cons b bs ih =>
    have hb : b < 128 := h b (by simp)
    have hbs : ∀ x ∈ bs, x < 128 := fun x hx => h x (by simp [hx])
    have hstep : utf8DecodeStep b bs = some (Char.ofNat b, bs) := by
      unfold utf8DecodeStep
      simp [hb]
    rw [utf8Decode, hstep]
    simp [ih hbs]

/-- decode_uid of an encoded pk: the base64 layer restores the digit
bytes and force_str restores the digit string. -/
theorem decode_uid_run_encode (pk : Nat) :
    decode_uid_run (encode_uid pk) = .ok (some (Nat.repr pk)) := by
  have hascii := repr_ascii pk
  have hb : ∀ b ∈ strBytes (Nat.repr pk), b < 256 := by
    intro b hbm
    simp only [strBytes, List.mem_map] at hbm
    obtain ⟨c, hc, rfl⟩ := hbm
    have := hascii c hc
    omega
  have h128 : ∀ b ∈ strBytes (Nat.repr pk), b < 128 := by
    intro b hbm
    simp only [strBytes, List.mem_map] at hbm
    obtain ⟨c, hc, rfl⟩ := hbm
    exact hascii c hc
  obtain ⟨hfil, hlen, hdec⟩ := encodeBytes_spec _ hb
  have hdata : (encode_uid pk).data = encodeBytes (strBytes (Nat.repr pk)) := rfl
  have hcond : ((((encode_uid pk).data.map translateUrlsafe).filter
      isB64DataChar).length % 4 == 1) = false := by
    rw [hdata, hfil]
    exact beq_eq_false_iff_ne.mpr hlen
  have hurl : urlsafe_base64_decode (encode_uid pk) = .ok (strBytes (Nat.repr pk)) := by
    unfold urlsafe_base64_decode
    simp only [hcond, Bool.false_eq_true, if_false]
    rw [hdata, hfil, hdec]
  have hforce : force_str (strBytes (Nat.repr pk)) = .ok (Nat.repr pk) := by
    unfold force_str
    rw [utf8Decode_ascii _ h128]
    have hmap : (strBytes (Nat.repr pk)).map Char.ofNat = (Nat.repr pk).data := by
      unfold strBytes
      rw [List.map_map, show Char.ofNat ∘ Char.toNat = id from funext Char.ofNat_toNat,
        List.map_id]
    rw [hmap]
  unfold decode_uid_run
  simp only [hurl, hforce]

/-- decode_uid never lets an exception escape: every raise site inside
it is a ValueError (or subclass), which the except clause catches. -/
theorem decode_uid_run_total (s : String) : ∃ r, decode_uid_run s = .ok r := by
  have hurl : ∀ e, urlsafe_base64_decode s = .error e → e = .valueError := by
    intro e he
    unfold urlsafe_base64_decode at he
    simp only [] at he
    split at he
    · cases he
      rfl
    · cases he
  rcases h : urlsafe_base64_decode s with e | bs
  · have he := hurl e h
    subst he
    refine ⟨none, ?_⟩
    unfold decode_uid_run
    simp only [h, caughtByDecodeUid, if_true]
  · rcases hf : force_str bs with e | v
    · have he : e = .valueError := by
        unfold force_str at hf
        split at hf
        · cases hf
        · cases hf
          rfl
      subst he
      refine ⟨none, ?_⟩
      unfold decode_uid_run
      simp only [h, hf, caughtByDecodeUid, if_true]
    · refine ⟨some v, ?_⟩
      unfold decode_uid_run
      simp only [h, hf]

/-- Appending on the left of a string is injective on the right
argument. -/
theorem string_append_cancel {s a b : String} (h : s ++ a = s ++ b) : a = b := by
  have hd := congrArg String.data h
  simp only [String.data_append] at hd
  exact String.ext (List.append_cancel_left hd)

/-- Acceptance of a form validation result. -/
def formAccepts (r : Except FormError String) : Bool :=
  match r with
  | .ok _ => true
  | .error _ => false

/-- find? after a key-targeted map-update: updating the rows whose key
matches and searching for that key finds the updated row, provided the
update preserves the key. -/
theorem find?_map_update {α : Type} (key : α → Nat) (l : List α) (k : Nat) (f : α → α)
    (hf : ∀ a, key (f a) = key a) :
    (l.map (fun a => if key a == k then f a else a)).find? (fun a => key a == k)
      = (l.find? (fun a => key a == k)).map f := by
  induction l with
  | nil => rfl
  | cons a l ih =>
    by_cases h : (key a == k) = true
    · have hfa : (key (f a) == k) = true := by rw [hf a]; exact h
      rw [List.map_cons, if_pos h,
        List.find?_cons_of_pos (p := fun x => key x == k) _ hfa,
        List.find?_cons_of_pos (p := fun x => key x == k) _ h, Option.map_some']
    · rw [List.map_cons, if_neg h,
        List.find?_cons_of_neg (p := fun x => key x == k) _ h,
        List.find?_cons_of_neg (p := fun x => key x == k) _ h, ih]

/-- Masking of the two stored token fields of a profile, used to state
that a decision does not depend on them. -/
def eraseTokenFields (p : UserProfile) : UserProfile :=
  { p with email_verification_token := none, password_reset_token := none }

/-- find? on two profile lists that agree up to the stored token fields
agrees up to the stored token fields. -/
theorem find?_erase_congr (l1 l2 : List UserProfile)
    (h : l1.map eraseTokenFields = l2.map eraseTokenFields) (pk : Nat) :
    (l1.find? (fun p => p.userPk == pk)).map eraseTokenFields
      = (l2.find? (fun p => p.userPk == pk)).map eraseTokenFields := by
  induction l1 generalizing l2 with
  | nil =>
    cases l2 with
    | nil => rfl
    | cons b l2 => simp at h
  | cons a l1 ih =>
    cases l2 with
    | nil => simp at h
    | cons b l2 =>
      simp only [List.map_cons, List.cons.injEq] at h
      obtain ⟨hab, hl⟩ := h
      have hpk : a.userPk = b.userPk := by
        have := congrArg UserProfile.userPk hab
        simpa [eraseTokenFields] using this
      by_cases hc : (a.userPk == pk) = true
      · have hc2 : (b.userPk == pk) = true := by rw [← hpk]; exact hc
        rw [List.find?_cons_of_pos (p := fun q : UserProfile => q.userPk == pk) _ hc,
          List.find?_cons_of_pos (p := fun q : UserProfile => q.userPk == pk) _ hc2,
          Option.map_some', Option.map_some', hab]
      · have hc2 : ¬ (b.userPk == pk) = true := by rw [← hpk]; exact hc
        rw [List.find?_cons_of_neg (p := fun q : UserProfile => q.userPk == pk) _ hc,
          List.find?_cons_of_neg (p := fun q : UserProfile => q.userPk == pk) _ hc2]
        exact ih l2 hl

/-!
Claim theorems.
-/

/-- Claim C7: for every account id, decoding the encoded id returns that
same id (as its decimal string, the form in which the view consumes it),
and decode_uid never lets an exception escape for ANY input string: every
exception its body can raise falls under the caught classes, so the
function always returns a value; for malformed input that value is the
typed failure None, as on the concrete garbage input "a". -/
theorem uid_codec_roundtrip_total :
    (∀ pk : Nat, decode_uid_run (encode_uid pk) = .ok (some (Nat.repr pk))) ∧
    (∀ s : String, ∃ r : Option String, decode_uid_run s = .ok r) ∧
    decode_uid_run "a" = .ok none :=
  ⟨decode_uid_run_encode, decode_uid_run_total, rfl⟩

/-- Claim C8: the strength check of SignupForm.clean_password accepts a
password exactly when it is at least 8 characters long and has an
uppercase letter, a lowercase letter, a digit and a special character;
PasswordResetForm.clean_password is the identical function; "short1!"
and "longenough1" are rejected and "LongEnough1!" accepted. -/
theorem password_policy_characterization :
    (∀ p : String, formAccepts (clean_password_signup p) =
        (decide (8 ≤ p.length) && hasUpper p && hasLower p &&
         hasDigitChar p && hasSpecial p)) ∧
    (∀ p : String, clean_password_signup p = clean_password_reset p) ∧
    formAccepts (clean_password_signup "short1!") = false ∧
    formAccepts (clean_password_signup "longenough1") = false ∧
    formAccepts (clean_password_signup "LongEnough1!") = true := by
  refine ⟨?_, fun p => rfl, by decide, by decide, by decide⟩
  intro p
  unfold clean_password_signup formAccepts
  by_cases h1 : p.length < 8
  · have h2 : ¬ (8 ≤ p.length) := by omega
    simp [h1, h2]
  · have h2 : 8 ≤ p.length := by omega
    cases hU : hasUpper p <;> cases hL : hasLower p <;>
      cases hD : hasDigitChar p <;> cases hS : hasSpecial p <;>
      simp [h1, h2, hU, hL, hD, hS]

/-- Claim C3 (with the 24-hour window modelled from the spec, the
settings module being outside the provided sources): a token generated
at time T for either purpose fails check_token at T plus 86401 seconds
(24h 1s) and passes at T plus 86340 seconds (23h 59m), for any account
state whose pk and bound mutable field (email for the verification
purpose, password hash for the reset purpose) are unchanged since
issuance. -/
theorem token_expiry_window :
    (∀ u v : DjangoUser, v.pk = u.pk → v.email = u.email → ∀ T : Nat,
      check_token email_verification_token v
          (make_token email_verification_token u T) (T + 86401) = false ∧
      check_token email_verification_token v
          (make_token email_verification_token u T) (T + 86340) = true) ∧
    (∀ u v : DjangoUser, v.pk = u.pk → v.password = u.password → ∀ T : Nat,
      check_token password_reset_token v
          (make_token password_reset_token u T) (T + 86401) = false ∧
      check_token password_reset_token v
          (make_token password_reset_token u T) (T + 86340) = true) := by
  constructor
  · intro u v hpk he T
    constructor
    · simp [check_token, make_token, email_verification_token, hpk, he,
        PASSWORD_RESET_TIMEOUT, Nat.add_sub_cancel_left]
    · simp [check_token, make_token, email_verification_token, hpk, he,
        PASSWORD_RESET_TIMEOUT, Nat.add_sub_cancel_left]
  · intro u v hpk hp T
    constructor
    · simp [check_token, make_token, password_reset_token, hpk, hp,
        PASSWORD_RESET_TIMEOUT, Nat.add_sub_cancel_left]
    · simp [check_token, make_token, password_reset_token, hpk, hp,
        PASSWORD_RESET_TIMEOUT, Nat.add_sub_cancel_left]

/-- Witness for the expiry window theorem at a concrete account, token
issued at T = 5, checking account state differing from the issuance
state only in fields outside the bound one. -/
theorem token_expiry_window_witness :
    check_token email_verification_token ⟨1, "a@x.com", "a@x.com", "h2", true⟩
        (make_token email_verification_token ⟨1, "a@x.com", "a@x.com", "h1", false⟩ 5)
        (5 + 86401) = false ∧
    check_token email_verification_token ⟨1, "a@x.com", "a@x.com", "h2", true⟩
        (make_token email_verification_token ⟨1, "a@x.com", "a@x.com", "h1", false⟩ 5)
        (5 + 86340) = true :=
  token_expiry_window.1 ⟨1, "a@x.com", "a@x.com", "h1", false⟩
    ⟨1, "a@x.com", "a@x.com", "h2", true⟩ rfl rfl 5

/-- Claim C6 counterexample: the two generators do NOT use distinct
purpose salts (both inherit the Django base key salt), so for an account
whose email string equals its stored password string the two
make_hash_value results coincide and a token minted by the
email-verification generator is accepted by the password-reset checker. -/
theorem cross_purpose_token_accepted :
    check_token password_reset_token ⟨1, "x", "x", "x", true⟩
      (make_token email_verification_token ⟨1, "x", "x", "x", true⟩ 0) 0 = true := by
  decide

/-- Claim C6 as amended: the generators share one key salt, and the
separation of purposes rests solely on the mutable field mixed into the
hash value (email versus password hash); whenever those two fields of
the account differ as strings, a token of either purpose is rejected by
the checker of the other purpose, at every checking time. -/
theorem cross_purpose_tokens_separated
    (u : DjangoUser) (ts now : Nat) (hne : u.email ≠ u.password) :
    email_verification_token.key_salt = password_reset_token.key_salt ∧
    check_token password_reset_token u
      (make_token email_verification_token u ts) now = false ∧
    check_token email_verification_token u
      (make_token password_reset_token u ts) now = false := by
  refine ⟨rfl, ?_, ?_⟩
  · have hh : (Nat.repr u.pk ++ Nat.repr ts ++ u.email ==
        Nat.repr u.pk ++ Nat.repr ts ++ u.password) = false := by
      apply beq_eq_false_iff_ne.mpr
      intro hcon
      exact hne (string_append_cancel hcon)
    simp [check_token, make_token, email_verification_token,
      password_reset_token, hh]
  · have hh : (Nat.repr u.pk ++ Nat.repr ts ++ u.password ==
        Nat.repr u.pk ++ Nat.repr ts ++ u.email) = false := by
      apply beq_eq_false_iff_ne.mpr
      intro hcon
      exact hne (string_append_cancel hcon).symm
    simp [check_token, make_token, email_verification_token,
      password_reset_token, hh]

/-- Witness for the amended cross-purpose separation at a concrete
account whose email differs from its stored password hash. -/
theorem cross_purpose_tokens_separated_witness :
    (("a@x.com" : String) ≠ "hash1") ∧
    (email_verification_token.key_salt = password_reset_token.key_salt ∧
     check_token password_reset_token ⟨1, "a@x.com", "a@x.com", "hash1", true⟩
       (make_token email_verification_token
         ⟨1, "a@x.com", "a@x.com", "hash1", true⟩ 0) 3 = false ∧
     check_token email_verification_token ⟨1, "a@x.com", "a@x.com", "hash1", true⟩
       (make_token password_reset_token
         ⟨1, "a@x.com", "a@x.com", "hash1", true⟩ 0) 3 = false) :=
  ⟨by decide,
   cross_purpose_tokens_separated ⟨1, "a@x.com", "a@x.com", "hash1", true⟩ 0 3
     (by decide)⟩

/-- Database for the reset-request observation with the probed email
absent: one unrelated registered account. -/
def dbGhostAbsent : DB :=
  { users := [⟨1, "alice@x.com", "alice@x.com", "pbkdf2_sha256$Secret1!", true⟩],
    profiles := [⟨1, "user", true, none, none, none, none⟩],
    sentEmails := [] }

/-- Database for the reset-request observation with the probed email
present. -/
def dbGhostPresent : DB :=
  { users := [⟨1, "alice@x.com", "alice@x.com", "pbkdf2_sha256$Secret1!", true⟩,
              ⟨2, "ghost@x.com", "ghost@x.com", "pbkdf2_sha256$Secret2!", true⟩],
    profiles := [⟨1, "user", true, none, none, none, none⟩,
                 ⟨2, "user", true, none, none, none, none⟩],
    sentEmails := [] }

/-- Claim C1 is violated by the code: PasswordResetRequestForm.clean_email
raises the visible validation error No-account-found when the submitted
email is not registered, while a registered email ends in the uniform
success redirect, so the two runs ARE observably different, contrary to
the claim and to the no-reveal comments inside the view itself. -/
theorem reset_request_distinguishes_existence :
    (password_reset_request dbGhostAbsent "ghost@x.com" 0).1 =
        ResetRequestOutcome.noAccountError ∧
    (password_reset_request dbGhostPresent "ghost@x.com" 0).1 =
        ResetRequestOutcome.successRedirect ∧
    ResetRequestOutcome.noAccountError ≠ ResetRequestOutcome.successRedirect :=
  ⟨rfl, rfl, by decide⟩

/-- Claim C2: when the signup form validates (email well formed, not
registered, password strong and confirmed) and the username is free, the
signup view reports success and appends exactly one new user row that is
inactive, one new profile row that is unverified with the default role,
and attempts exactly one verification email. -/
theorem signup_pending_verification
    (db : DB) (email password password_confirm : String) (now : Nat)
    (em pw : String)
    (hform : cleanSignupForm db email password password_confirm = .ok (em, pw))
    (husr : db.users.any (fun u => u.username == em) = false) :
    (signup db email password password_confirm now).1 = .registered ∧
    ∃ u : DjangoUser, ∃ p : UserProfile,
      (signup db email password password_confirm now).2.users = db.users ++ [u] ∧
      u.is_active = false ∧ u.email = em ∧
      (signup db email password password_confirm now).2.profiles
        = db.profiles ++ [p] ∧
      p.userPk = u.pk ∧ p.email_verified = false ∧ p.role = "user" ∧
      (signup db email password password_confirm now).2.sentEmails
        = db.sentEmails ++ [(em, "Verify Your Email - Authentication System")] := by
  unfold signup
  rw [hform]
  simp only [husr, Bool.false_eq_true, if_false]
  refine ⟨?_, ⟨nextPk db, em, em, hashPassword pw, false⟩,
    ⟨nextPk db, "user", false,
      some (make_token email_verification_token
        ⟨nextPk db, em, em, hashPassword pw, false⟩ now),
      some now, none, none⟩,
    ?_, ?_, ?_, ?_, ?_, ?_, ?_, ?_⟩ <;> trivial

/-- Empty database for the signup witness. -/
def dbEmpty : DB := { users := [], profiles := [], sentEmails := [] }

/-- Witness for the signup theorem on a concrete fresh registration. -/
theorem signup_pending_verification_witness :
    (cleanSignupForm dbEmpty "a@x.com" "Abcdef1!" "Abcdef1!"
        = .ok ("a@x.com", "Abcdef1!")) ∧
    (dbEmpty.users.any (fun u => u.username == "a@x.com") = false) ∧
    ((signup dbEmpty "a@x.com" "Abcdef1!" "Abcdef1!" 7).1 = .registered ∧
     ∃ u : DjangoUser, ∃ p : UserProfile,
       (signup dbEmpty "a@x.com" "Abcdef1!" "Abcdef1!" 7).2.users
         = dbEmpty.users ++ [u] ∧
       u.is_active = false ∧ u.email = "a@x.com" ∧
       (signup dbEmpty "a@x.com" "Abcdef1!" "Abcdef1!" 7).2.profiles
         = dbEmpty.profiles ++ [p] ∧
       p.userPk = u.pk ∧ p.email_verified = false ∧ p.role = "user" ∧
       (signup dbEmpty "a@x.com" "Abcdef1!" "Abcdef1!" 7).2.sentEmails
         = dbEmpty.sentEmails
             ++ [("a@x.com", "Verify Your Email - Authentication System")]) :=
  ⟨rfl, rfl,
   signup_pending_verification dbEmpty "a@x.com" "Abcdef1!" "Abcdef1!" 7
     "a@x.com" "Abcdef1!" rfl rfl⟩

/-- Claim C9: for a registered account that is inactive or has an
unverified email, the login view never succeeds, for ANY submitted
password: it reports account-not-active when is_active is false,
otherwise email-not-verified, both decided before any credential
check (the outcome does not depend on the password). -/
theorem login_unverified_never_succeeds
    (db : DB) (email password : String) (u : DjangoUser) (p : UserProfile)
    (hwf : emailWellFormed email = true)
    (hu : findUserByEmail db (lowerAscii email) = some u)
    (hp : findProfile db u.pk = some p)
    (hguard : u.is_active = false ∨ p.email_verified = false) :
    login_view db email password =
      (if u.is_active then .emailNotVerified else .accountNotActive) ∧
    login_view db email password ≠ .success := by
  have hmain : login_view db email password =
      (if u.is_active then LoginOutcome.emailNotVerified else .accountNotActive) := by
    unfold login_view
    simp only [hwf, Bool.not_true, Bool.false_eq_true, if_false, hu, hp]
    by_cases ha : u.is_active = true
    · have hev : p.email_verified = false := by
        rcases hguard with h | h
        · rw [ha] at h
          cases h
        · exact h
      simp [ha, hev]
    · have ha' : u.is_active = false := by
        cases hav : u.is_active
        · rfl
        · exact absurd hav ha
      simp [ha']
  refine ⟨hmain, ?_⟩
  rw [hmain]
  by_cases ha : u.is_active = true <;> simp [ha]

/-- Database for the login witness: one inactive unverified account. -/
def dbLogin : DB :=
  { users := [⟨1, "bob@x.com", "bob@x.com", "pbkdf2_sha256$Abcdef1!", false⟩],
    profiles := [⟨1, "user", false, none, none, none, none⟩],
    sentEmails := [] }

/-- Witness for the login guard theorem on a concrete inactive account,
probed with its correct password. -/
theorem login_unverified_never_succeeds_witness :
    emailWellFormed "bob@x.com" = true ∧
    findUserByEmail dbLogin (lowerAscii "bob@x.com")
      = some ⟨1, "bob@x.com", "bob@x.com", "pbkdf2_sha256$Abcdef1!", false⟩ ∧
    findProfile dbLogin 1 = some ⟨1, "user", false, none, none, none, none⟩ ∧
    (login_view dbLogin "bob@x.com" "Abcdef1!" =
      (if (false : Bool) then .emailNotVerified else .accountNotActive) ∧
     login_view dbLogin "bob@x.com" "Abcdef1!" ≠ .success) :=
  ⟨rfl, rfl, rfl,
   login_unverified_never_succeeds dbLogin "bob@x.com" "Abcdef1!"
     ⟨1, "bob@x.com", "bob@x.com", "pbkdf2_sha256$Abcdef1!", false⟩
     ⟨1, "user", false, none, none, none, none⟩ rfl rfl rfl (Or.inl rfl)⟩

/-- User lookup after a pk-targeted user update: finds the updated row. -/
theorem findUserByPk_update (db : DB) (pk : Nat) (f : DjangoUser → DjangoUser)
    (hf : ∀ u, (f u).pk = u.pk) :
    findUserByPk (updateUserByPk db pk f) pk = (findUserByPk db pk).map f := by
  unfold findUserByPk updateUserByPk
  exact find?_map_update (fun u => u.pk) db.users pk f hf

/-- Profile lookup after a pk-targeted profile update: finds the updated
row. -/
theorem findProfile_update (db : DB) (pk : Nat) (f : UserProfile → UserProfile)
    (hf : ∀ p, (f p).userPk = p.userPk) :
    findProfile (updateProfileByPk db pk f) pk = (findProfile db pk).map f := by
  unfold findProfile updateProfileByPk
  exact find?_map_update (fun p => p.userPk) db.profiles pk f hf

/-- Claim C4: with a valid verification token for an account whose
profile is not yet verified, the first verify_email call activates the
account (is_active and email_verified both become true) and reports
success; a second call with the SAME token reports the informational
already-verified outcome and leaves the database exactly as the first
call left it, so the activation side effects happen at most once. -/
theorem verify_email_twice
    (db : DB) (pk : Nat) (u : DjangoUser) (p : UserProfile)
    (uidb64 uidStr : String)
    (hdec : decode_uid_run uidb64 = .ok (some uidStr))
    (hparse : parseNat uidStr = some pk)
    (hu : findUserByPk db pk = some u)
    (hp : findProfile db pk = some p)
    (hver : p.email_verified = false)
    (ts now1 now2 : Nat)
    (h1 : now1 - ts ≤ PASSWORD_RESET_TIMEOUT)
    (h2 : now2 - ts ≤ PASSWORD_RESET_TIMEOUT) :
    (verify_email db uidb64 (make_token email_verification_token u ts) now1).1
        = .verified ∧
    (findUserByPk
        (verify_email db uidb64 (make_token email_verification_token u ts) now1).2
        pk).map DjangoUser.is_active = some true ∧
    (findProfile
        (verify_email db uidb64 (make_token email_verification_token u ts) now1).2
        pk).map UserProfile.email_verified = some true ∧
    verify_email
        (verify_email db uidb64 (make_token email_verification_token u ts) now1).2
        uidb64 (make_token email_verification_token u ts) now2
      = (.alreadyVerified,
         (verify_email db uidb64 (make_token email_verification_token u ts) now1).2) := by
  have hchk1 : check_token email_verification_token u
      (make_token email_verification_token u ts) now1 = true := by
    simp [check_token, make_token, h1]
  have hrun1 : verify_email db uidb64 (make_token email_verification_token u ts) now1 =
      (.verified,
       updateProfileByPk (updateUserByPk db pk (fun x => { x with is_active := true })) pk
         (fun q => { q with email_verified := true, email_verification_token := none, email_verification_created := none })) := by
    unfold verify_email
    simp only [hdec, hparse, hu, hp, hchk1, Bool.not_true, Bool.false_eq_true,
      if_false, hver]
  have hcross : findUserByPk
      (updateProfileByPk (updateUserByPk db pk (fun x => { x with is_active := true })) pk
        (fun q => { q with email_verified := true, email_verification_token := none, email_verification_created := none })) pk
      = findUserByPk (updateUserByPk db pk (fun x => { x with is_active := true })) pk := rfl
  have hu2 : findUserByPk
      (updateProfileByPk (updateUserByPk db pk (fun x => { x with is_active := true })) pk
        (fun q => { q with email_verified := true, email_verification_token := none, email_verification_created := none })) pk
      = some { u with is_active := true } := by
    rw [hcross,
      findUserByPk_update db pk (fun x => { x with is_active := true }) (fun x => rfl), hu]
    rfl
  have hp2 : findProfile
      (updateProfileByPk (updateUserByPk db pk (fun x => { x with is_active := true })) pk
        (fun q => { q with email_verified := true, email_verification_token := none, email_verification_created := none })) pk
      = some { p with email_verified := true, email_verification_token := none, email_verification_created := none } := by
    rw [findProfile_update
        (updateUserByPk db pk (fun x => { x with is_active := true })) pk
        (fun q => { q with email_verified := true, email_verification_token := none, email_verification_created := none })
        (fun q => rfl),
      show findProfile (updateUserByPk db pk (fun x => { x with is_active := true })) pk
        = findProfile db pk from rfl, hp]
    rfl
  have hchk2 : check_token email_verification_token { u with is_active := true }
      (make_token email_verification_token u ts) now2 = true := by
    simp [check_token, make_token, email_verification_token, h2]
  have hrun2 : verify_email
      (updateProfileByPk (updateUserByPk db pk (fun x => { x with is_active := true })) pk
        (fun q => { q with email_verified := true, email_verification_token := none, email_verification_created := none }))
      uidb64 (make_token email_verification_token u ts) now2
      = (.alreadyVerified,
         updateProfileByPk (updateUserByPk db pk (fun x => { x with is_active := true })) pk
           (fun q => { q with email_verified := true, email_verification_token := none, email_verification_created := none })) := by
    unfold verify_email
    simp only [hdec, hparse, hu2, hp2, hchk2, Bool.not_true, Bool.false_eq_true,
      if_false, if_true]
  rw [hrun1]
  refine ⟨rfl, ?_, ?_, hrun2⟩ <;> simp only [hu2, hp2]
  · rfl
  · rfl

/-- Account row for the double-verification witness. -/
def uC4 : DjangoUser := ⟨1, "a@x.com", "a@x.com", "h", false⟩

/-- Profile row for the double-verification witness. -/
def pC4 : UserProfile := ⟨1, "user", false, none, none, none, none⟩

/-- Database for the double-verification witness. -/
def dbC4 : DB := { users := [uC4], profiles := [pC4], sentEmails := [] }

/-- Witness for the double-verification theorem on a concrete pending
account, token issued at 0, first click at 10, second at 20. -/
theorem verify_email_twice_witness :
    (decode_uid_run (encode_uid 1) = .ok (some "1")) ∧
    (parseNat "1" = some 1) ∧
    (findUserByPk dbC4 1 = some uC4) ∧
    (findProfile dbC4 1 = some pC4) ∧
    (pC4.email_verified = false) ∧
    (10 - 0 ≤ PASSWORD_RESET_TIMEOUT) ∧
    (20 - 0 ≤ PASSWORD_RESET_TIMEOUT) ∧
    ((verify_email dbC4 (encode_uid 1) (make_token email_verification_token uC4 0) 10).1
        = .verified ∧
     (findUserByPk
        (verify_email dbC4 (encode_uid 1) (make_token email_verification_token uC4 0) 10).2
        1).map DjangoUser.is_active = some true ∧
     (findProfile
        (verify_email dbC4 (encode_uid 1) (make_token email_verification_token uC4 0) 10).2
        1).map UserProfile.email_verified = some true ∧
     verify_email
        (verify_email dbC4 (encode_uid 1) (make_token email_verification_token uC4 0) 10).2
        (encode_uid 1) (make_token email_verification_token uC4 0) 20
      = (.alreadyVerified,
         (verify_email dbC4 (encode_uid 1) (make_token email_verification_token uC4 0) 10).2)) :=
  ⟨decode_uid_run_encode 1, rfl, rfl, rfl, rfl, by decide, by decide,
   verify_email_twice dbC4 1 uC4 pC4 (encode_uid 1) "1" (decode_uid_run_encode 1)
     rfl rfl rfl rfl 0 10 20 (by decide) (by decide)⟩

/-- Claim C5: a reset token is bound to the password hash current at
issuance; once the stored hash differs from the one at issuance, a
password_reset_confirm presenting the stale token reports the
invalid-or-expired outcome and leaves the whole database unchanged, on
GET and on any POST alike. -/
theorem reset_confirm_stale_token
    (db : DB) (pk : Nat) (u uIss : DjangoUser) (p : UserProfile)
    (uidb64 uidStr : String)
    (hdec : decode_uid_run uidb64 = .ok (some uidStr))
    (hparse : parseNat uidStr = some pk)
    (hu : findUserByPk db pk = some u)
    (hp : findProfile db pk = some p)
    (hpk : uIss.pk = u.pk)
    (hpw : uIss.password ≠ u.password)
    (tsIss now : Nat) (post : Option (String × String)) :
    password_reset_confirm db uidb64 (make_token password_reset_token uIss tsIss) now post
      = (.invalidOrExpired, db) := by
  have hh : (Nat.repr uIss.pk ++ Nat.repr tsIss ++ uIss.password ==
      Nat.repr u.pk ++ Nat.repr tsIss ++ u.password) = false := by
    rw [hpk]
    apply beq_eq_false_iff_ne.mpr
    intro hcon
    exact hpw (string_append_cancel hcon)
  have hchk : check_token password_reset_token u
      (make_token password_reset_token uIss tsIss) now = false := by
    simp [check_token, make_token, password_reset_token, hh]
  unfold password_reset_confirm
  simp [hdec, hparse, hu, hp, hchk]

/-- Account row at reset-token issuance time for the stale-token
witness: the stored hash was h1. -/
def uC5Iss : DjangoUser := ⟨1, "c@x.com", "c@x.com", "h1", true⟩

/-- Current account row for the stale-token witness: the hash changed to
h2 after the token was issued. -/
def uC5 : DjangoUser := ⟨1, "c@x.com", "c@x.com", "h2", true⟩

/-- Profile row for the stale-token witness. -/
def pC5 : UserProfile := ⟨1, "user", true, none, none, none, none⟩

/-- Database for the stale-token witness. -/
def dbC5 : DB := { users := [uC5], profiles := [pC5], sentEmails := [] }

/-- Witness for the stale-reset-token theorem on a concrete account
whose hash changed between issuance and confirmation. -/
theorem reset_confirm_stale_token_witness :
    (decode_uid_run (encode_uid 1) = .ok (some "1")) ∧
    (parseNat "1" = some 1) ∧
    (findUserByPk dbC5 1 = some uC5) ∧
    (findProfile dbC5 1 = some pC5) ∧
    (uC5Iss.pk = uC5.pk) ∧
    (uC5Iss.password ≠ uC5.password) ∧
    password_reset_confirm dbC5 (encode_uid 1)
        (make_token password_reset_token uC5Iss 0) 5
        (some ("NewPass1!", "NewPass1!"))
      = (.invalidOrExpired, dbC5) :=
  ⟨decode_uid_run_encode 1, rfl, rfl, rfl, rfl, by decide,
   reset_confirm_stale_token dbC5 1 uC5 uC5Iss pC5 (encode_uid 1) "1"
     (decode_uid_run_encode 1) rfl rfl rfl rfl (by decide) 0 5
     (some ("NewPass1!", "NewPass1!"))⟩

/-- Claim C10: the acceptance decisions of verify_email and
password_reset_confirm never read the stored profile token fields: two
databases agreeing on everything except the email_verification_token and
password_reset_token columns produce identical caller-visible outcomes,
so overwriting or clearing a stored token field does not by itself
invalidate an already-emailed token. -/
theorem token_checks_ignore_stored_fields
    (db1 db2 : DB)
    (husers : db1.users = db2.users)
    (hprof : db1.profiles.map eraseTokenFields = db2.profiles.map eraseTokenFields)
    (uidb64 : String) (tok : SignedToken) (now : Nat)
    (post : Option (String × String)) :
    (verify_email db1 uidb64 tok now).1 = (verify_email db2 uidb64 tok now).1 ∧
    (password_reset_confirm db1 uidb64 tok now post).1
      = (password_reset_confirm db2 uidb64 tok now post).1 := by
  have hfu : findUserByPk db1 = findUserByPk db2 := by
    funext k
    unfold findUserByPk
    rw [husers]
  constructor
  · unfold verify_email
    rcases hd : decode_uid_run uidb64 with e | o
    · simp [hd]
    rcases o with _ | s
    · simp [hd]
    simp only [hd]
    rcases hps : parseNat s with _ | pk
    · simp [hps]
    simp only [hps, hfu]
    rcases hu : findUserByPk db2 pk with _ | u
    · simp [hu]
    simp only [hu]
    have hfpk : (findProfile db1 pk).map eraseTokenFields
        = (findProfile db2 pk).map eraseTokenFields :=
      find?_erase_congr db1.profiles db2.profiles hprof pk
    rcases hp1 : findProfile db1 pk with _ | p1 <;>
      rcases hp2 : findProfile db2 pk with _ | p2
    · simp [hp1, hp2]
    · rw [hp1, hp2] at hfpk
      simp at hfpk
    · rw [hp1, hp2] at hfpk
      simp at hfpk
    · have hev : p1.email_verified = p2.email_verified := by
        rw [hp1, hp2] at hfpk
        simp only [Option.map_some', Option.some.injEq] at hfpk
        have hcg := congrArg UserProfile.email_verified hfpk
        exact hcg
      simp only [hp1, hp2]
      cases hcv : check_token email_verification_token u tok now
      · simp [hcv]
      · cases hev2 : p2.email_verified
        · have hev1 : p1.email_verified = false := by rw [hev, hev2]
          simp [hcv, hev1, hev2]
        · have hev1 : p1.email_verified = true := by rw [hev, hev2]
          simp [hcv, hev1, hev2]
  · unfold password_reset_confirm
    rcases hd : decode_uid_run uidb64 with e | o
    · simp [hd]
    rcases o with _ | s
    · simp [hd]
    simp only [hd]
    rcases hps : parseNat s with _ | pk
    · simp [hps]
    simp only [hps, hfu]
    rcases hu : findUserByPk db2 pk with _ | u
    · simp [hu]
    simp only [hu]
    have hfpk : (findProfile db1 pk).map eraseTokenFields
        = (findProfile db2 pk).map eraseTokenFields :=
      find?_erase_congr db1.profiles db2.profiles hprof pk
    rcases hp1 : findProfile db1 pk with _ | p1 <;>
      rcases hp2 : findProfile db2 pk with _ | p2
    · simp [hp1, hp2]
    · rw [hp1, hp2] at hfpk
      simp at hfpk
    · rw [hp1, hp2] at hfpk
      simp at hfpk
    · simp only [hp1, hp2]
      cases hcv : check_token password_reset_token u tok now
      · simp [hcv]
      · rcases post with _ | ⟨pw, pwc⟩
        · simp [hcv]
        · rcases hcf : cleanResetForm pw pwc with e | v
          · simp [hcv, hcf]
          · simp [hcv, hcf]

/-- First database for the stored-field-independence witness: the token
columns are empty. -/
def dbC10a : DB :=
  { users := [⟨1, "d@x.com", "d@x.com", "h", true⟩],
    profiles := [⟨1, "user", false, none, some 3, none, some 4⟩],
    sentEmails := [] }

/-- Second database for the stored-field-independence witness: same
rows, with both token columns overwritten. -/
def dbC10b : DB :=
  { users := [⟨1, "d@x.com", "d@x.com", "h", true⟩],
    profiles := [⟨1, "user", false, some ⟨0, "s", "v"⟩, some 3,
                  some ⟨1, "s2", "v2"⟩, some 4⟩],
    sentEmails := [] }

/-- Witness for the stored-field-independence theorem on two concrete
databases differing only in the stored token columns. -/
theorem token_checks_ignore_stored_fields_witness :
    (dbC10a.users = dbC10b.users) ∧
    (dbC10a.profiles.map eraseTokenFields = dbC10b.profiles.map eraseTokenFields) ∧
    ((verify_email dbC10a (encode_uid 1) ⟨0, djangoKeySalt, "v"⟩ 9).1
        = (verify_email dbC10b (encode_uid 1) ⟨0, djangoKeySalt, "v"⟩ 9).1 ∧
     (password_reset_confirm dbC10a (encode_uid 1) ⟨0, djangoKeySalt, "v"⟩ 9 none).1
        = (password_reset_confirm dbC10b (encode_uid 1) ⟨0, djangoKeySalt, "v"⟩ 9 none).1) :=
  ⟨rfl, rfl,
   token_checks_ignore_stored_fields dbC10a dbC10b rfl rfl (encode_uid 1)
     ⟨0, djangoKeySalt, "v"⟩ 9 none⟩
